import Mathlib

/-!
Verification of the Vec3 vector type from src/src/util/vec.py.

The class Vec3 stores three floating-point components x, y, z and offers
component-wise arithmetic, Euclidean geometry helpers, and an angle
operation.  We embed it shallowly: components become real numbers,
math.sqrt becomes Real.sqrt, math.acos becomes Real.arccos restricted to
its domain.  Operations that can raise in Python are embedded as
Option-valued functions: Python float division by a zero divisor raises
ZeroDivisionError (it does not return inf or NaN), math.acos raises
ValueError outside the interval from -1 to 1, and tuple indexing raises
IndexError outside the valid index range.  A returned none models a raised
condition; some v models a normal return of v.
-/

/-- The Vec3 record: three numeric fields x, y, z. -/
@[ext]
structure Vec3 where
  x : ℝ
  y : ℝ
  z : ℝ

/-- Vec3.__getitem__: the body is (self.x, self.y, self.z)[item].  Python
indexing of a 3-tuple accepts 0, 1, 2 and also the negative indices -1,
-2, -3 (counting from the end); every other integer raises IndexError. -/
def Vec3.getitem (v : Vec3) (i : ℤ) : Option ℝ :=
  if i = 0 ∨ i = -3 then some v.x
  else if i = 1 ∨ i = -2 then some v.y
  else if i = 2 ∨ i = -1 then some v.z
  else none

/-- Vec3.__add__: component-wise sum. -/
def Vec3.add (a b : Vec3) : Vec3 :=
  ⟨a.x + b.x, a.y + b.y, a.z + b.z⟩

/-- Vec3.__sub__: component-wise difference. -/
def Vec3.sub (a b : Vec3) : Vec3 :=
  ⟨a.x - b.x, a.y - b.y, a.z - b.z⟩

/-- Vec3.__neg__: component-wise negation. -/
def Vec3.neg (a : Vec3) : Vec3 :=
  ⟨-a.x, -a.y, -a.z⟩

/-- Vec3.__mul__: component-wise multiplication by a scalar on the right. -/
def Vec3.mul (a : Vec3) (scale : ℝ) : Vec3 :=
  ⟨a.x * scale, a.y * scale, a.z * scale⟩

/-- Vec3.__rmul__: scalar on the left; the body returns self * scale. -/
def Vec3.rmul (scale : ℝ) (a : Vec3) : Vec3 :=
  a.mul scale

/-- Vec3.__truediv__: the body computes scale = 1 / float(scale) and
returns self * scale.  When the divisor is zero, the division 1 / 0.0
raises ZeroDivisionError in Python, modelled as none. -/
noncomputable def Vec3.truediv (a : Vec3) (scale : ℝ) : Option Vec3 :=
  if scale = 0 then none else some (a.mul (1 / scale))

/-- Vec3.flat: returns Vec3(self.x, self.y, 0). -/
def Vec3.flat (a : Vec3) : Vec3 :=
  ⟨a.x, a.y, 0⟩

/-- Vec3.length: returns math.sqrt(x**2 + y**2 + z**2). -/
noncomputable def Vec3.length (a : Vec3) : ℝ :=
  Real.sqrt (a.x ^ 2 + a.y ^ 2 + a.z ^ 2)

/-- Vec3.dist: returns (self - other).length(). -/
noncomputable def Vec3.dist (a other : Vec3) : ℝ :=
  (a.sub other).length

/-- Vec3.normalized: returns self / self.length(); raises (none) exactly
when the length is zero, through the division in __truediv__. -/
noncomputable def Vec3.normalized (a : Vec3) : Option Vec3 :=
  a.truediv a.length

/-- Vec3.rescale: returns new_len * self.normalized(); the call to
normalized runs first, so a raise there propagates. -/
noncomputable def Vec3.rescale (a : Vec3) (new_len : ℝ) : Option Vec3 :=
  a.normalized.map (fun v => Vec3.rmul new_len v)

/-- Vec3.dot: returns x*ox + y*oy + z*oz. -/
def Vec3.dot (a other : Vec3) : ℝ :=
  a.x * other.x + a.y * other.y + a.z * other.z

/-- Vec3.cross: the left-handed-system cross product formula from the
source, component for component. -/
def Vec3.cross (a other : Vec3) : Vec3 :=
  ⟨a.y * other.z - a.z * other.y,
   a.z * other.x - a.x * other.z,
   a.x * other.y - a.y * other.x⟩

/-- Python float division a / b: raises ZeroDivisionError when b is zero. -/
noncomputable def pydiv (a b : ℝ) : Option ℝ :=
  if b = 0 then none else some (a / b)

/-- math.acos: raises ValueError when the argument lies outside the
closed interval from -1 to 1; otherwise returns the inverse cosine. -/
noncomputable def pyacos (c : ℝ) : Option ℝ :=
  if c < -1 ∨ 1 < c then none else some (Real.arccos c)

/-- The computation done by Vec3.ang_to once the dot product and the two
lengths are in hand: cos_ang = d / (l1 * l2) followed by math.acos,
with no clamping of cos_ang in between. -/
noncomputable def acosPipeline (d l1 l2 : ℝ) : Option ℝ :=
  (pydiv d (l1 * l2)).bind pyacos

/-- Vec3.ang_to: cos_ang = self.dot(ideal) / (self.length() * ideal.length())
and then math.acos(cos_ang). -/
noncomputable def Vec3.ang_to (a ideal : Vec3) : Option ℝ :=
  acosPipeline (a.dot ideal) a.length ideal.length

/-- Clamping of a cosine argument into the interval from -1 to 1, the
DomainClamp requirement stated by the spec.  It is absent from the
source of Vec3.ang_to; it is defined here only for comparison. -/
noncomputable def clampUnit (c : ℝ) : ℝ :=
  max (-1) (min 1 c)

/-- The acos pipeline as the spec requires it: identical to acosPipeline
except that the cosine argument is clamped before math.acos, so the
inverse cosine is always applied inside its domain. -/
noncomputable def acosPipelineClamped (d l1 l2 : ℝ) : Option ℝ :=
  (pydiv d (l1 * l2)).map (fun c => Real.arccos (clampUnit c))

/-- Helper: the sum of the three squared components is nonnegative. -/
theorem sumSq_nonneg (a : Vec3) : 0 ≤ a.x ^ 2 + a.y ^ 2 + a.z ^ 2 := by
  positivity

/-- Claim C5: for all Vec3 a and b, cross(a, b) equals
(a.y*b.z - a.z*b.y, a.z*b.x - a.x*b.z, a.x*b.y - a.y*b.x) and is
anti-commutative: cross(a, b) equals negate(cross(b, a)). -/
theorem C5_cross_formula_anticomm (a b : Vec3) :
    a.cross b = ⟨a.y * b.z - a.z * b.y, a.z * b.x - a.x * b.z,
      a.x * b.y - a.y * b.x⟩ ∧ a.cross b = (b.cross a).neg := by
  refine ⟨rfl, ?_⟩
  ext <;> simp only [Vec3.cross, Vec3.neg] <;> ring

/-- Claim C6: for every Vec3 a and scalar k, scalar multiplication on the
left produces the identical result to scalar multiplication on the right:
the body of __rmul__ delegates to __mul__. -/
theorem C6_rmul_eq_mul (a : Vec3) (k : ℝ) :
    a.mul k = Vec3.rmul k a :=
  rfl

/-- Claim C7: for all Vec3 a and b, dist(a, b) equals
length(subtract(a, b)), and dist is symmetric. -/
theorem C7_dist_sub_symm (a b : Vec3) :
    a.dist b = (a.sub b).length ∧ a.dist b = b.dist a := by
  refine ⟨rfl, ?_⟩
  simp only [Vec3.dist, Vec3.sub, Vec3.length]
  congr 1
  ring

/-- Claim C8: for every Vec3 a, length(a) equals sqrt of the sum of the
squared components, is nonnegative, and vanishes exactly on the zero
vector. -/
theorem C8_length_norm (a : Vec3) :
    a.length = Real.sqrt (a.x ^ 2 + a.y ^ 2 + a.z ^ 2) ∧ 0 ≤ a.length ∧
      (a.length = 0 ↔ a = ⟨0, 0, 0⟩) := by
  refine ⟨rfl, Real.sqrt_nonneg _, ?_⟩
  rw [Vec3.length, Real.sqrt_eq_zero (sumSq_nonneg a)]
  constructor
  · intro h
    have hx : a.x = 0 := by nlinarith [sq_nonneg a.x, sq_nonneg a.y, sq_nonneg a.z]
    have hy : a.y = 0 := by nlinarith [sq_nonneg a.x, sq_nonneg a.y, sq_nonneg a.z]
    have hz : a.z = 0 := by nlinarith [sq_nonneg a.x, sq_nonneg a.y, sq_nonneg a.z]
    ext <;> assumption
  · intro h
    rw [h]
    norm_num

/-- Claim C9: for every Vec3 a, flat(a) keeps x and y and forces the
third component to exactly 0. -/
theorem C9_flat (a : Vec3) :
    a.flat = ⟨a.x, a.y, 0⟩ :=
  rfl

/-- Claim C3 counterexample: the claim says every integer index other
than 0, 1, 2 fails with IndexError, but Python tuple indexing accepts
negative indices: Vec3(1,2,3)[-1] returns the z component 3 instead of
raising. -/
theorem C3_counterexample_neg_index :
    (Vec3.mk 1 2 3).getitem (-1) = some 3 :=
  rfl

/-- Claim C3 amended: indexed access returns x at 0 and -3, y at 1 and
-2, z at 2 and -1, and fails with IndexError for every integer outside
the interval from -3 to 2. -/
theorem C3_getitem_cases (v : Vec3) (i : ℤ) :
    (v.getitem 0 = some v.x ∧ v.getitem 1 = some v.y ∧
      v.getitem 2 = some v.z) ∧
    (v.getitem (-3) = some v.x ∧ v.getitem (-2) = some v.y ∧
      v.getitem (-1) = some v.z) ∧
    (i < -3 ∨ 2 < i → v.getitem i = none) := by
  refine ⟨⟨rfl, rfl, rfl⟩, ⟨rfl, rfl, rfl⟩, fun h => ?_⟩
  rw [Vec3.getitem, if_neg (by omega), if_neg (by omega), if_neg (by omega)]

/-- Witness for the amended Claim C3 at the concrete vector (1,2,3) and
the out-of-range index 5. -/
theorem C3_getitem_cases_witness :
    (Vec3.mk 1 2 3).getitem (-2) = some 2 ∧
      (Vec3.mk 1 2 3).getitem 5 = none :=
  ⟨(C3_getitem_cases (Vec3.mk 1 2 3) 5).2.1.2.1,
    (C3_getitem_cases (Vec3.mk 1 2 3) 5).2.2 (Or.inr (by norm_num))⟩

/-- Claim C4: for every Vec3 a and nonzero scalar k, division returns
scale(a, 1/k); for k = 0 the division 1 / float(0) raises
ZeroDivisionError. -/
theorem C4_truediv_scale (a : Vec3) (k : ℝ) (hk : k ≠ 0) :
    a.truediv k = some (a.mul (1 / k)) ∧ a.truediv 0 = none := by
  rw [Vec3.truediv, if_neg hk, Vec3.truediv, if_pos rfl]
  exact ⟨rfl, rfl⟩

/-- Witness for Claim C4 at a = (1,2,3) and k = 2. -/
theorem C4_truediv_scale_witness :
    (Vec3.mk 1 2 3).truediv 2 = some ((Vec3.mk 1 2 3).mul (1 / 2)) ∧
      (Vec3.mk 1 2 3).truediv 0 = none :=
  C4_truediv_scale (Vec3.mk 1 2 3) 2 (by norm_num)

/-- Claim C2 counterexample: the claim says normalized on a zero-length
operand silently produces an inf- or NaN-valued result rather than
raising, but Python float division by zero raises ZeroDivisionError, so
Vec3(0,0,0).normalized() raises (modelled as none). -/
theorem C2_counterexample_zero_normalized :
    (Vec3.mk 0 0 0).normalized = none := by
  have h : (Vec3.mk 0 0 0).length = 0 := by
    rw [Vec3.length]
    norm_num
  rw [Vec3.normalized, h, Vec3.truediv, if_pos rfl]

/-- Claim C2 amended: when normalized, rescale, or ang_to is invoked on a
zero-length operand, the operation fails with a raised
ZeroDivisionError-class condition; no inf or NaN float result is
produced. -/
theorem C2_zero_length_raises (a b : Vec3) (k : ℝ) (h : a.length = 0) :
    a.normalized = none ∧ a.rescale k = none ∧
      a.ang_to b = none ∧ b.ang_to a = none := by
  have hn : a.normalized = none := by
    rw [Vec3.normalized, h, Vec3.truediv, if_pos rfl]
  refine ⟨hn, ?_, ?_, ?_⟩
  · rw [Vec3.rescale, hn]
    rfl
  · rw [Vec3.ang_to, acosPipeline, h, zero_mul, pydiv, if_pos rfl, Option.none_bind]
  · rw [Vec3.ang_to, acosPipeline, h, mul_zero, pydiv, if_pos rfl, Option.none_bind]

/-- Witness for the amended Claim C2 at the zero vector, b = (1,2,3) and
k = 5. -/
theorem C2_zero_length_raises_witness :
    (Vec3.mk 0 0 0).length = 0 ∧
      ((Vec3.mk 0 0 0).normalized = none ∧
        (Vec3.mk 0 0 0).rescale 5 = none ∧
        (Vec3.mk 0 0 0).ang_to (Vec3.mk 1 2 3) = none ∧
        (Vec3.mk 1 2 3).ang_to (Vec3.mk 0 0 0) = none) := by
  have h : (Vec3.mk 0 0 0).length = 0 := by
    rw [Vec3.length]
    norm_num
  exact ⟨h, C2_zero_length_raises (Vec3.mk 0 0 0) (Vec3.mk 1 2 3) 5 h⟩

/-- Claim C10: for non-zero-length vectors a and b, ang_to is symmetric,
because the dot product and the product of the two lengths are both
symmetric in the arguments. -/
theorem C10_ang_to_symm (a b : Vec3) (_ha : a.length ≠ 0) (_hb : b.length ≠ 0) :
    a.ang_to b = b.ang_to a := by
  rw [Vec3.ang_to, Vec3.ang_to,
    show a.dot b = b.dot a by rw [Vec3.dot, Vec3.dot]; ring,
    acosPipeline, acosPipeline, mul_comm]

/-- Witness for Claim C10 at the unit vectors (1,0,0) and (0,1,0). -/
theorem C10_ang_to_symm_witness :
    (Vec3.mk 1 0 0).length ≠ 0 ∧ (Vec3.mk 0 1 0).length ≠ 0 ∧
      (Vec3.mk 1 0 0).ang_to (Vec3.mk 0 1 0) =
        (Vec3.mk 0 1 0).ang_to (Vec3.mk 1 0 0) := by
  have h1 : (Vec3.mk 1 0 0).length ≠ 0 := by
    rw [Vec3.length, show ((1 : ℝ) ^ 2 + 0 ^ 2 + 0 ^ 2) = 1 by norm_num,
      Real.sqrt_one]
    norm_num
  have h2 : (Vec3.mk 0 1 0).length ≠ 0 := by
    rw [Vec3.length, show ((0 : ℝ) ^ 2 + 1 ^ 2 + 0 ^ 2) = 1 by norm_num,
      Real.sqrt_one]
    norm_num
  exact ⟨h1, h2, C10_ang_to_symm (Vec3.mk 1 0 0) (Vec3.mk 0 1 0) h1 h2⟩

/-- Claim C1 (evidence of the code bug): the source of ang_to does not
clamp the cosine argument.  On the input a = ideal = Vec3(1,1,1), Python
computes dot = 3.0 and each length() = 1.7320508075688772, the IEEE-754
double nearest the square root of 3; that value squares to strictly less
than 3, so the unclamped quotient exceeds 1 and math.acos raises
ValueError (left conjunct: the pipeline of the source fails).  The
clamped pipeline the spec requires returns acos(1) = 0 on the same
values (right conjunct). -/
theorem C1_unclamped_acos_fails :
    acosPipeline 3 1.7320508075688772 1.7320508075688772 = none ∧
      acosPipelineClamped 3 1.7320508075688772 1.7320508075688772 =
        some 0 := by
  have hc : ((1.7320508075688772 : ℝ) * 1.7320508075688772) ≠ 0 := by
    norm_num
  have hgt : 1 < (3 : ℝ) / (1.7320508075688772 * 1.7320508075688772) := by
    rw [lt_div_iff₀ (by norm_num)]
    norm_num
  constructor
  · rw [acosPipeline, pydiv, if_neg hc, Option.some_bind, pyacos,
      if_pos (Or.inr hgt)]
  · rw [acosPipelineClamped, pydiv, if_neg hc, Option.map_some', clampUnit,
      min_eq_left hgt.le, max_eq_right (by norm_num : (-1 : ℝ) ≤ 1),
      Real.arccos_one]
